import Mathlib

/-!
Verification of the ftp-server repository's core protocol engine against its
natural-language specification.  The Rust sources under `src/` are shallowly
embedded as executable Lean definitions: paths become a component-list model,
stateful handlers become pure functions threading an explicit `Client` record,
filesystem and socket calls become fields of an abstract `World`, and fallible
code returns `Except`.  The command parser (`src/cmd.rs`) and the reply types
(`src/ftp.rs`) are declared in `main.rs` via `mod cmd;` / `mod ftp;` but are
not present in the repository, so those two pieces are modelled from the
specification (see the doc comments starting with `Modelled from the spec:`).
-/

deriving instance DecidableEq for Except

namespace FtpServer

/-! ## Path model

A Rust `PathBuf` is modelled by its normalized component view: an absoluteness
flag (whether the path has a root component) and the list of remaining
components as strings.  Rust's `Path::components()` normalization drops empty
segments and `.` segments, which the parsing constructor below mirrors; a
`..` segment is kept and plays the role of `Component::ParentDir`.
-/

structure FilePath where
  absolute : Bool
  parts : List String
deriving DecidableEq

/-- The empty (relative) path, i.e. `PathBuf::default()`. -/
def FilePath.empty : FilePath := ⟨false, []⟩

/-- Rust `Path::has_root` (on Unix the same as `is_absolute`). -/
def FilePath.hasRoot (p : FilePath) : Bool := p.absolute

/-- Rust `Path::join` / `PathBuf::push`: an absolute argument replaces the base. -/
def FilePath.join (p q : FilePath) : FilePath :=
  if q.absolute then q else ⟨p.absolute, p.parts ++ q.parts⟩

/-- Rust `PathBuf::push` of one plain file-name component. -/
def FilePath.pushSeg (p : FilePath) (seg : String) : FilePath :=
  ⟨p.absolute, p.parts ++ [seg]⟩

/-- Rust `path.iter().skip(1).collect()`: drop the first component (for an absolute
path the root marker), yielding a relative path, as used by `complete_path`. -/
def FilePath.skipFirst (p : FilePath) : FilePath :=
  if p.absolute then ⟨false, p.parts⟩ else ⟨false, p.parts.drop 1⟩

/-- Rust `Path::starts_with`: component-wise comparison, so the root marker of an
absolute path must match and the base's components must lead the other's. -/
def FilePath.startsWith (p base : FilePath) : Bool :=
  p.absolute = base.absolute && base.parts.isPrefixOf p.parts

/-- Rust `Path::strip_prefix`: remove a leading base, leaving a relative remainder;
errors (`StripPrefixError`) when the base does not lead the path. -/
def FilePath.stripBase (p base : FilePath) : Except Unit FilePath :=
  if p.startsWith base then .ok ⟨false, p.parts.drop base.parts.length⟩
  else .error ()

/-- Rust `Path::parent`: `None` for the bare root and for the empty relative path,
otherwise the path with its last component removed. -/
def FilePath.parent (p : FilePath) : Option FilePath :=
  match p.parts with
  | [] => none
  | _ :: _ => some ⟨p.absolute, p.parts.dropLast⟩

/-- Rust `Path::file_name`: the last component when it is a normal segment;
`None` for the bare root, the empty path, and a trailing `..`. -/
def FilePath.fileName (p : FilePath) : Option String :=
  match p.parts.getLast? with
  | some seg => if seg = ".." then none else some seg
  | none => none

/-- Rendering used for `to_str`/`Display` on the component model: components
joined by `/`, with a leading `/` when absolute.  (Raw Rust paths may render
`.`/`//` noise that the normalized model elides.) -/
def FilePath.render (p : FilePath) : String :=
  (if p.absolute then "/" else "") ++ String.intercalate "/" p.parts

/-- Rust `invalid_path` (main.rs): does any component equal `ParentDir`? -/
def invalidPath (path : FilePath) : Bool :=
  path.parts.any (fun c => c = "..")

/-- Rust `prefix_slash` (main.rs): make a relative path absolute by prepending `/`. -/
def prefixSlash (path : FilePath) : FilePath :=
  if path.absolute then path else ⟨true, path.parts⟩

/-- Rust `get_parent` (main.rs). -/
def getParent (path : FilePath) : Option FilePath := path.parent

/-- Rust `get_filename` (main.rs). -/
def getFilename (path : FilePath) : Option String := path.fileName

/-- Rust `base` is a strict ancestor of `p`: same root, the components of `base`
lead those of `p`, and `p` has strictly more of them. -/
def FilePath.isDescendantOf (p base : FilePath) : Prop :=
  p.absolute = base.absolute ∧ base.parts <+: p.parts ∧ base.parts ≠ p.parts

/-! ## Protocol value types

`src/ftp.rs` (declaring `Answer` and `ResultCode`) is referenced from
`main.rs` via `mod ftp;` but is not part of the repository, so these two
types are modelled from the specification's data model and reply-code list. -/

/-- Modelled from the spec: the fixed enumeration of three-digit reply codes
used by the server (`src/ftp.rs` is missing); only the symbolic names matter
to the session logic, the numeric values are not needed here. -/
inductive ResultCode
  | serviceReadyForNewUser
  | serviceClosingControlConnection
  | userLoggedIn
  | userNameOkayNeedPassword
  | notLoggedIn
  | ok
  | invalidParameterOrArgument
  | unknownCommand
  | fileNotFound
  | pathnameCreated
  | requestedFileActionOkay
  | dataConnectionAlreadyOpen
  | enteringPassiveMode
  | connectionClosed
  | closingDataConnection
  | localErrorInProcessing
  | badSequenceOfCommands
  | cantOpenDataConnection
deriving DecidableEq

/-- Modelled from the spec: a Reply (`Answer` in `src/ftp.rs`, missing from
the repository) is a status code plus a human-readable message. -/
structure Answer where
  code : ResultCode
  message : String
deriving DecidableEq

/-- Transfer type tag (`TransferType` lives in the missing `src/cmd.rs`);
modelled from the spec: binary (image) vs ASCII, ASCII being the default. -/
inductive TransferType
  | ascii
  | image
deriving DecidableEq

/-- Modelled from the spec: the closed set of command variants
(`Command` lives in the missing `src/cmd.rs`). -/
inductive Command
  | user (name : String)
  | pass (password : String)
  | pwd
  | cwd (path : FilePath)
  | cdUp
  | typ (t : TransferType)
  | pasv
  | port (n : Nat)
  | mkd (path : FilePath)
  | rmd (path : FilePath)
  | list (path : Option FilePath)
  | retr (path : FilePath)
  | stor (path : FilePath)
  | syst
  | noOp
  | quit
  | unknown (raw : String)
deriving DecidableEq

/-- Subset of `std::io::ErrorKind` values the server distinguishes. -/
inductive IOErrorKind
  | permissionDenied
  | notFound
  | other
deriving DecidableEq

/-- The crate's `Error` enum (`src/error.rs`), with one extra variant:
`panicked` models a Rust panic (`unimplemented!`, `unwrap` on `None`) as an
outcome of a session step; it is never produced by the command parser. -/
inductive Error
  | fromUtf8
  | ioErr (k : IOErrorKind)
  | msg (s : String)
  | utf8
  | panicked
deriving DecidableEq

/-- Rust `Error::to_io_error` (`src/error.rs`): an `Io` error keeps its kind,
every other variant collapses to `Other`. -/
def Error.toIoError : Error → IOErrorKind
  | .ioErr k => k
  | _ => .other

/-! ## UTF-8 decoding

The parser must reject invalid UTF-8 where a string is required (Rust's
`String::from_utf8` / `str::from_utf8`).  This is a standard UTF-8 decoder
over the byte list: it rejects stray continuation bytes, overlong encodings,
surrogate code points and values beyond U+10FFFF. -/

/-- Is `b` a UTF-8 continuation byte (`10xxxxxx`)? -/
def isContByte (b : UInt8) : Bool := 0x80 ≤ b.toNat && b.toNat < 0xC0

def utf8Chars : List UInt8 → Option (List Char)
  | [] => some []
  | b :: rest =>
    let n := b.toNat
    if n < 0x80 then
      (utf8Chars rest).map (fun cs => Char.ofNat n :: cs)
    else if n < 0xC2 then none
    else if n < 0xE0 then
      match rest with
      | b1 :: rest2 =>
        if isContByte b1 then
          (utf8Chars rest2).map
            (fun cs => Char.ofNat ((n - 0xC0) * 0x40 + (b1.toNat - 0x80)) :: cs)
        else none
      | [] => none
    else if n < 0xF0 then
      match rest with
      | b1 :: b2 :: rest3 =>
        if isContByte b1 && isContByte b2 then
          let cp := (n - 0xE0) * 0x1000 + (b1.toNat - 0x80) * 0x40 + (b2.toNat - 0x80)
          if cp < 0x800 || (0xD800 ≤ cp && cp < 0xE000) then none
          else (utf8Chars rest3).map (fun cs => Char.ofNat cp :: cs)
        else none
      | _ => none
    else if n < 0xF5 then
      match rest with
      | b1 :: b2 :: b3 :: rest4 =>
        if isContByte b1 && isContByte b2 && isContByte b3 then
          let cp := (n - 0xF0) * 0x40000 + (b1.toNat - 0x80) * 0x1000 +
            (b2.toNat - 0x80) * 0x40 + (b3.toNat - 0x80)
          if cp < 0x10000 || 0x110000 ≤ cp then none
          else (utf8Chars rest4).map (fun cs => Char.ofNat cp :: cs)
        else none
      | _ => none
    else none

/-- Decode a byte list to a `String`, `none` on invalid UTF-8. -/
def utf8String (bs : List UInt8) : Option String :=
  (utf8Chars bs).map fun cs => String.mk cs

/-! ## Command parser (`Command::new`, modelled from the spec) -/

/-- ASCII bytes of a (pure-ASCII) string literal, for verb-table entries. -/
def asciiBytes (s : String) : List UInt8 := s.data.map (fun c => UInt8.ofNat c.toNat)

/-- ASCII uppercase of one byte, for case-insensitive verb matching. -/
def upperByte (b : UInt8) : UInt8 :=
  if 97 ≤ b.toNat && b.toNat ≤ 122 then b - 32 else b

/-- Split a line on the first whitespace run: the verb and, when a space is
present, the remainder with the run of spaces removed. -/
def splitLine (line : List UInt8) : List UInt8 × Option (List UInt8) :=
  let verb := line.takeWhile (fun b => b ≠ 32)
  match line.dropWhile (fun b => b ≠ 32) with
  | [] => (verb, none)
  | rest => (verb, some (rest.dropWhile (fun b => b = 32)))

/-- Split a character list on a separator character (keeping empty pieces),
the character-level counterpart of `str::split`. -/
def splitOnChar (sep : Char) : List Char → List (List Char)
  | [] => [[]]
  | c :: rest =>
    if c = sep then [] :: splitOnChar sep rest
    else
      match splitOnChar sep rest with
      | piece :: pieces => (c :: piece) :: pieces
      | [] => [[c]]

/-- Decimal value of a non-empty digit string, `none` on a non-digit or on
the empty string. -/
def decValue : List Char → Option Nat
  | [] => none
  | cs =>
    cs.foldl
      (fun acc c =>
        match acc with
        | none => none
        | some n => if c.isDigit then some (n * 10 + (c.toNat - 48)) else none)
      (some 0)

/-- Rust `PORT` argument: six comma-separated octets `h1,h2,h3,h4,p1,p2`, each in
`0..=255`; wrong arity or out-of-range values are rejected; the port is
`p1 * 256 + p2`. -/
def parsePort (s : String) : Option Nat :=
  match (splitOnChar ',' s.data).mapM (fun p => decValue p) with
  | some ns =>
    if ns.length = 6 && ns.all (fun n => n ≤ 255) then
      some ((ns.get? 4).getD 0 * 256 + (ns.get? 5).getD 0)
    else none
  | none => none

/-- Build a `FilePath` from its textual form, mirroring the component
normalization of `Path::components` (empty and `.` segments dropped). -/
def FilePath.parse (s : String) : FilePath :=
  let absolute := match s.data with
    | '/' :: _ => true
    | _ => false
  let segs := (splitOnChar '/' s.data).map (fun cs => String.mk cs)
  ⟨absolute, segs.filter (fun seg => seg ≠ "" && seg ≠ ".")⟩

/-- Modelled from the spec: `Command::new` (`src/cmd.rs` is missing from the
repository; only the fuzz target includes it).  Per §4.1: split the line on
the first whitespace run into verb and optional remainder; match the verb
case-insensitively against the verb table; decode the argument per verb
(paths taken verbatim with no normalization beyond the component view, the
`PORT` six-octet encoding checked for arity and range, single-letter `TYPE`
codes with unrecognized ones rejected); an unknown verb yields
`Unknown(original text)`; a missing required argument or invalid UTF-8 where
a string is required is a parse error. -/
def Command.new (input : List UInt8) : Except Error Command :=
  let vr := splitLine input
  let verbRaw := vr.1
  let remainder := vr.2
  let verb := verbRaw.map upperByte
  let strArg : Except Error String :=
    match remainder with
    | none => .error (.msg "no command parameter")
    | some bytes =>
      match utf8String bytes with
      | some s => .ok s
      | none => .error .fromUtf8
  let pathArg : Except Error FilePath :=
    match remainder with
    | none => .error (.msg "no command parameter")
    | some bytes =>
      match utf8String bytes with
      | some s => .ok (FilePath.parse s)
      | none => .error .utf8
  if verb = asciiBytes "USER" then strArg.map .user
  else if verb = asciiBytes "PASS" then strArg.map .pass
  else if verb = asciiBytes "PWD" then .ok .pwd
  else if verb = asciiBytes "CWD" then pathArg.map .cwd
  else if verb = asciiBytes "CDUP" then .ok .cdUp
  else if verb = asciiBytes "TYPE" then
    match remainder with
    | none => .error (.msg "no command parameter")
    | some bytes =>
      match utf8String bytes with
      | some s =>
        if s = "A" then .ok (.typ .ascii)
        else if s = "I" then .ok (.typ .image)
        else .error (.msg "unknown transfer type")
      | none => .error .utf8
  else if verb = asciiBytes "PASV" then .ok .pasv
  else if verb = asciiBytes "PORT" then
    match remainder with
    | none => .error (.msg "no command parameter")
    | some bytes =>
      match utf8String bytes with
      | some s =>
        match parsePort s with
        | some n => .ok (.port n)
        | none => .error (.msg "invalid port argument")
      | none => .error .utf8
  else if verb = asciiBytes "MKD" then pathArg.map .mkd
  else if verb = asciiBytes "RMD" then pathArg.map .rmd
  else if verb = asciiBytes "LIST" then
    match remainder with
    | none => .ok (.list none)
    | some bytes =>
      match utf8String bytes with
      | some s => .ok (.list (some (FilePath.parse s)))
      | none => .error .utf8
  else if verb = asciiBytes "RETR" then pathArg.map .retr
  else if verb = asciiBytes "STOR" then pathArg.map .stor
  else if verb = asciiBytes "SYST" then .ok .syst
  else if verb = asciiBytes "NOOP" then .ok .noOp
  else if verb = asciiBytes "QUIT" then .ok .quit
  else .ok (.unknown ((utf8String verbRaw).getD ""))

/-! ## Line-framing codec (`src/codec.rs`) -/

/-- Rust `find_crlf` (`src/codec.rs`): position of the first two-byte `\r\n`
window in the buffer. -/
def findCrlf : List UInt8 → Option Nat
  | 13 :: 10 :: _ => some 0
  | _ :: rest => (findCrlf rest).map (fun i => i + 1)
  | [] => none

/-- Rust `FtpCodec::decode` (`src/codec.rs`): no CRLF means "need more data" and
the buffer is untouched; otherwise the line before the CRLF is split off,
the CRLF is consumed, and the line goes to `Command::new`, whose error is
converted by `Error::to_io_error`.  Returns the decode result together with
the remaining buffer. -/
def decode (buf : List UInt8) : Except IOErrorKind (Option Command) × List UInt8 :=
  match findCrlf buf with
  | some index =>
    let line := buf.take index
    let rest := (buf.drop index).drop 2
    (((Command.new line).map (fun command => some command)).mapError Error.toIoError,
      rest)
  | none => (.ok none, buf)

/-! ## Configuration and session state (`src/config.rs`, `src/main.rs`) -/

/-- Rust `User` (`src/config.rs`). -/
structure User where
  name : String
  password : String
deriving DecidableEq

/-- Rust `Config` (`src/config.rs`); the server address and port play no role in
command handling and are omitted from the model. -/
structure Config where
  users : List User
  admin : Option User
deriving DecidableEq

/-- Rust `CONFIG_FILE` (`src/main.rs`). -/
def configFile : String := "config.toml"

/-- The `Client` session state (`src/main.rs`).  The two data-channel halves
are modelled by their presence (`data_reader`/`data_writer` as `Bool`), and
the control-channel writer is not a field: answers written through it are
collected in the `Outcome` of each handler. -/
structure Client where
  data_port : Option Nat
  data_reader : Bool
  data_writer : Bool
  cwd : FilePath
  name : Option String
  server_root : FilePath
  transfer_type : TransferType
  is_admin : Bool
  config : Config
  waiting_password : Bool
deriving DecidableEq

/-- Rust `Client::new` (`src/main.rs`). -/
def Client.new (server_root : FilePath) (config : Config) : Client :=
  { data_port := none
    data_reader := false
    data_writer := false
    cwd := ⟨true, []⟩
    name := none
    server_root := server_root
    transfer_type := .ascii
    is_admin := false
    config := config
    waiting_password := false }

/-- Rust `Client::is_logged` (`src/main.rs`). -/
def Client.isLogged (c : Client) : Bool := c.name.isSome && !c.waiting_password

/-- Rust `Client::close_data_connection` (`src/main.rs`). -/
def Client.closeDataConnection (c : Client) : Client :=
  { c with data_reader := false, data_writer := false }

/-- Observable side effects of one command on the filesystem and the data
channel, recorded so the theorems can state "no filesystem or data-channel
I/O happened". -/
inductive Effect
  | createdDir (p : FilePath)
  | removedDir (p : FilePath)
  | wroteFile (p : FilePath) (data : List UInt8)
  | readFile (p : FilePath)
  | readDirectory (p : FilePath)
  | dataSent (d : List UInt8)
  | dataReceived
  | boundListener
deriving DecidableEq

/-- The environment a command executes against: the outcomes of the
filesystem and socket calls the handlers make.  `canonicalize` is the real
filesystem's `Path::canonicalize`, so it is an arbitrary function — in
particular one that resolves `..` segments and symlinks however the disk
dictates. -/
structure World where
  canonicalize : FilePath → Except IOErrorKind FilePath
  isDir : FilePath → Bool
  isFile : FilePath → Bool
  readDir : FilePath → Except Unit (List FilePath)
  createDirOk : FilePath → Bool
  removeDirOk : FilePath → Bool
  openFile : FilePath → Except IOErrorKind (List UInt8)
  /-- One rendered `add_file_info` line for an entry (empty when its
  metadata is unavailable); the exact format is irrelevant to the claims. -/
  renderInfo : FilePath → List UInt8
  /-- `File::create` + `write_all` success for a `STOR` target. -/
  createFileOk : FilePath → Bool
  /-- `TcpListener::bind` + `local_addr` for `PASV`: the bound port. -/
  bindListener : Nat → Except IOErrorKind Nat
  /-- `listener.accept` success for `PASV`. -/
  acceptOk : Bool
  /-- Data-socket `send` success. -/
  dataSendOk : Bool
  /-- Bytes drained from the data connection by `receive_data`. -/
  receivedData : List UInt8

/-- Result of one command: the answers written to the control channel and
the effects produced before the handler returned, and either the next
session state or the error that propagated out of `handle_cmd`. -/
structure Outcome where
  answers : List Answer
  effects : List Effect
  result : Except Error Client
deriving DecidableEq

/-! ## Command handlers (`src/main.rs`)

Each `async fn` on `Client` that consumes `self` and returns
`Result<Self>` becomes a pure function to `Outcome`.  `Client::send` can
only fail when the control socket fails, which terminates the session and
is outside these claims, so writing an answer is modelled as appending it
to the outcome's list. -/

/-- Rust `Client::complete_path` (`src/main.rs`): join the candidate (with its
root marker stripped) onto the server root, canonicalize against the real
filesystem, and reject a canonical result that does not start with the
server root with `PermissionDenied`.  `self` is threaded through unchanged
in the source and therefore omitted here. -/
def completePath (canon : FilePath → Except IOErrorKind FilePath)
    (c : Client) (path : FilePath) : Except IOErrorKind FilePath :=
  let directory := c.server_root.join
    (if path.hasRoot then path.skipFirst else path)
  match canon directory with
  | .ok dir =>
    if dir.startsWith c.server_root then .ok dir
    else .error .permissionDenied
  | .error e => .error e

/-- The joined path `complete_path` hands to `canonicalize`, exposed for the
statements about rejection of escaping canonical forms. -/
def completePathJoined (c : Client) (path : FilePath) : FilePath :=
  c.server_root.join (if path.hasRoot then path.skipFirst else path)

/-- Rust `Client::strip_prefix` (`src/main.rs`). -/
def Client.stripRoot (c : Client) (dir : FilePath) : Except Unit FilePath :=
  dir.stripBase c.server_root

/-- The `Command::Pwd` arm of `handle_cmd` (`src/main.rs`). -/
def pwdCmd (c : Client) : Outcome :=
  let msg := c.cwd.render
  if msg ≠ "" then
    ⟨[⟨.pathnameCreated, "\"" ++ msg ++ "\" "⟩], [], .ok c⟩
  else
    ⟨[⟨.fileNotFound, "No such file or directory"⟩], [], .ok c⟩

/-- The `Command::CdUp` arm of `handle_cmd` (`src/main.rs`). -/
def cdUpCmd (c : Client) : Outcome :=
  let c :=
    match c.cwd.parent with
    | some path => { c with cwd := prefixSlash path }
    | none => c
  ⟨[⟨.ok, "Done"⟩], [], .ok c⟩

/-- Rust `Client::cwd` (`src/main.rs`). -/
def cwdCmd (w : World) (c : Client) (directory : FilePath) : Outcome :=
  let path := c.cwd.join directory
  match completePath w.canonicalize c path with
  | .ok dir =>
    match c.stripRoot dir with
    | .ok stripped =>
      ⟨[⟨.requestedFileActionOkay,
          "Directory changed to \"" ++ directory.render ++ "\""⟩], [],
        .ok { c with cwd := stripped }⟩
    | .error _ =>
      ⟨[⟨.fileNotFound, "No such file or directory"⟩], [], .ok c⟩
  | .error _ =>
    ⟨[⟨.fileNotFound, "No such file or directory"⟩], [], .ok c⟩

/-- Rust `Client::mkd` (`src/main.rs`). -/
def mkdCmd (w : World) (c : Client) (path : FilePath) : Outcome :=
  let path := c.cwd.join path
  let failure : Outcome := ⟨[⟨.fileNotFound, "Couldn't create folder"⟩], [], .ok c⟩
  match getParent path with
  | some parent =>
    match completePath w.canonicalize c parent with
    | .ok dir =>
      if w.isDir dir then
        match getFilename path with
        | some filename =>
          let dir := dir.pushSeg filename
          if w.createDirOk dir then
            ⟨[⟨.pathnameCreated, "Folder successfully created!"⟩],
              [.createdDir dir], .ok c⟩
          else failure
        | none => failure
      else failure
    | .error _ => failure
  | none => failure

/-- Rust `Client::rmd` (`src/main.rs`). -/
def rmdCmd (w : World) (c : Client) (directory : FilePath) : Outcome :=
  let path := c.cwd.join directory
  match completePath w.canonicalize c path with
  | .ok dir =>
    if w.removeDirOk dir then
      ⟨[⟨.requestedFileActionOkay, "successfully removed"⟩],
        [.removedDir dir], .ok c⟩
    else ⟨[⟨.fileNotFound, "Couldn't remove folder"⟩], [], .ok c⟩
  | .error _ => ⟨[⟨.fileNotFound, "Couldn't remove folder"⟩], [], .ok c⟩

/-- Rust `Client::quit` (`src/main.rs`): with an open data writer the source hits
`unimplemented!()`, modelled as a panic outcome. -/
def quitCmd (c : Client) : Outcome :=
  if c.data_writer then ⟨[], [], .error .panicked⟩
  else ⟨[⟨.serviceClosingControlConnection, "Closing connection..."⟩], [], .ok c⟩

/-- Rust `Client::pasv` (`src/main.rs`): an already-open data writer short
circuits; otherwise bind (data port or 0), announce the passive address,
and accept one connection, whose reader/writer halves populate the state. -/
def pasvCmd (w : World) (c : Client) : Outcome :=
  let port := c.data_port.getD 0
  if c.data_writer then
    ⟨[⟨.dataConnectionAlreadyOpen, "Already listening..."⟩], [], .ok c⟩
  else
    match w.bindListener port with
    | .ok boundPort =>
      let answer : Answer :=
        ⟨.enteringPassiveMode,
          "127,0,0,1," ++ toString (boundPort / 256) ++ "," ++ toString (boundPort % 256)⟩
      if w.acceptOk then
        ⟨[answer], [.boundListener],
          .ok { c with data_writer := true, data_reader := true }⟩
      else ⟨[answer], [.boundListener], .error (.ioErr .other)⟩
    | .error e => ⟨[], [], .error (.ioErr e)⟩

/-- Rust `Client::send_data` (`src/main.rs`); a failed data-socket send
propagates as an error. -/
def sendData (w : World) (c : Client) (data : List UInt8) : Outcome :=
  if c.data_writer then
    if w.dataSendOk then ⟨[], [.dataSent data], .ok c⟩
    else ⟨[], [], .error (.ioErr .other)⟩
  else ⟨[], [], .ok c⟩

/-- Rust `Client::list` (`src/main.rs`). -/
def listCmd (w : World) (c : Client) (pathArg : Option FilePath) : Outcome :=
  if c.data_writer then
    let path := c.cwd.join (pathArg.getD FilePath.empty)
    match completePath w.canonicalize c path with
    | .ok path =>
      let opening : Answer := ⟨.dataConnectionAlreadyOpen, "Starting to list directory..."⟩
      let afterOut : List UInt8 → Outcome := fun out =>
        match sendData w c out with
        | ⟨as, es, .ok c⟩ =>
          if c.data_writer then
            ⟨[opening] ++ as ++ [⟨.closingDataConnection, "Transfer done"⟩],
              es, .ok c.closeDataConnection⟩
          else ⟨[opening] ++ as, es, .ok c⟩
        | ⟨as, es, .error e⟩ => ⟨[opening] ++ as, es, .error e⟩
      if w.isDir path then
        match w.readDir path with
        | .ok entries =>
          let visible := entries.filter
            (fun entry => c.is_admin || entry ≠ c.server_root.pushSeg configFile)
          match afterOut (visible.flatMap w.renderInfo) with
          | ⟨as, es, r⟩ => ⟨as, [.readDirectory path] ++ es, r⟩
        | .error _ =>
          ⟨[opening, ⟨.invalidParameterOrArgument, "No such file or directory"⟩],
            [], .ok c⟩
      else
        afterOut
          (if c.is_admin || path ≠ c.server_root.pushSeg configFile then
            w.renderInfo path
          else [])
    | .error _ =>
      let answers := [⟨ResultCode.invalidParameterOrArgument, "No such file or directory"⟩]
      if c.data_writer then
        ⟨answers ++ [⟨.closingDataConnection, "Transfer done"⟩], [],
          .ok c.closeDataConnection⟩
      else ⟨answers, [], .ok c⟩
  else
    ⟨[⟨.connectionClosed, "No opened data connection"⟩], [], .ok c⟩

/-- Rust `Client::retr` (`src/main.rs`). -/
def retrCmd (w : World) (c : Client) (pathArg : FilePath) : Outcome :=
  let closeTrailing : Outcome → Outcome := fun o =>
    match o with
    | ⟨as, es, .ok c⟩ =>
      if c.data_writer then
        ⟨as ++ [⟨.closingDataConnection, "Transfer done"⟩], es,
          .ok c.closeDataConnection⟩
      else ⟨as, es, .ok c⟩
    | e => e
  closeTrailing (
    if c.data_writer then
      let path := c.cwd.join pathArg
      match completePath w.canonicalize c path with
      | .ok path =>
        if w.isFile path && (c.is_admin || path ≠ c.server_root.pushSeg configFile) then
          let opening : Answer := ⟨.dataConnectionAlreadyOpen, "Starting to send file..."⟩
          match w.openFile path with
          | .ok data =>
            match sendData w c data with
            | ⟨as, es, r⟩ => ⟨[opening] ++ as, [.readFile path] ++ es, r⟩
          | .error e => ⟨[opening], [], .error (.ioErr e)⟩
        else
          ⟨[⟨.localErrorInProcessing,
              "\"" ++ path.render ++ "\" doesn't exit"⟩], [], .ok c⟩
      | .error _ =>
        ⟨[⟨.localErrorInProcessing,
            "\"" ++ path.render ++ "\" doesn't exist"⟩], [], .ok c⟩
    else
      ⟨[⟨.connectionClosed, "No opened data connection"⟩], [], .ok c⟩)

/-- Rust `Client::stor` (`src/main.rs`): with an open data reader, a path with a
`..` component or a non-admin hit on the configuration file returns a
`PermissionDenied` error (no reply, no join); otherwise the data connection
is drained and the file written.  Draining (`receive_data`) logs and
swallows read errors, so it is modelled as always yielding the world's
received bytes. -/
def storCmd (w : World) (c : Client) (pathArg : FilePath) : Outcome :=
  if c.data_reader then
    if invalidPath pathArg ||
        (!c.is_admin && pathArg = c.server_root.pushSeg configFile) then
      ⟨[], [], .error (.ioErr .permissionDenied)⟩
    else
      let path := c.cwd.join pathArg
      let opening : Answer := ⟨.dataConnectionAlreadyOpen, "Starting to send file..."⟩
      let data := w.receivedData
      let c := { c with data_reader := false }
      if w.createFileOk path then
        ⟨[opening, ⟨.closingDataConnection, "Transfer done"⟩],
          [.dataReceived, .wroteFile path data],
          .ok c.closeDataConnection⟩
      else ⟨[opening], [.dataReceived], .error (.ioErr .other)⟩
  else
    ⟨[⟨.connectionClosed, "No opened data connection"⟩], [], .ok c⟩

/-- The `Command::User` arm of `handle_cmd` (`src/main.rs`), transcribed
with its exact flow: `name` starts as `None`, the admin branch sets only
`pass_required` and `is_admin` (it never assigns `name`), the user-list
loop then runs (its `name.is_none()` guard is always true) and is the only
assignment to `name`. -/
def userCmd (c : Client) (content : String) : Outcome :=
  if content = "" then
    ⟨[⟨.invalidParameterOrArgument, "Invalid username"⟩], [], .ok c⟩
  else
    let name : Option String := none
    let passRequired := true
    let adminStep : Bool × Bool :=
      match c.config.admin with
      | some admin =>
        if admin.name = content then (!(admin.password = ""), true)
        else (passRequired, false)
      | none => (passRequired, false)
    let c := { c with is_admin := adminStep.2 }
    let afterUsers : Option String × Bool :=
      if name.isNone then
        match c.config.users.find? (fun user => user.name = content) with
        | some user => (some content, !(user.password = ""))
        | none => (name, adminStep.1)
      else (name, adminStep.1)
    match afterUsers.1 with
    | none => ⟨[⟨.notLoggedIn, "Unknown user..."⟩], [], .ok c⟩
    | some n =>
      let c := { c with name := some n }
      if afterUsers.2 then
        ⟨[⟨.userNameOkayNeedPassword, "Login Ok password needed for " ++ n⟩],
          [], .ok { c with waiting_password := true }⟩
      else
        ⟨[⟨.userLoggedIn, "Welcome " ++ content ++ "!"⟩],
          [], .ok { c with waiting_password := false }⟩

/-- The `Command::Pass` arm of `handle_cmd` (`src/main.rs`), reached while a
password is awaited: an admin-flagged session compares against the admin
password (`unwrap` panics when no admin is configured), otherwise the user
list is scanned for a name-and-password match. -/
def passCmd (c : Client) (content : String) : Outcome :=
  let okResult : Except Error Bool :=
    if c.is_admin then
      match c.config.admin with
      | some admin => .ok (content = admin.password)
      | none => .error .panicked
    else
      .ok (c.config.users.any
        (fun user => some user.name = c.name && user.password = content))
  match okResult with
  | .error e => ⟨[], [], .error e⟩
  | .ok ok =>
    if ok then
      ⟨[⟨.userLoggedIn, "Welcome " ++ c.name.getD ""⟩], [],
        .ok { c with waiting_password := false }⟩
    else
      ⟨[⟨.notLoggedIn, "Invalid password"⟩], [], .ok c⟩

/-- The final `match` of `handle_cmd` (`src/main.rs`), reached for commands
not consumed by the logged-in arm or the awaiting-password arm. -/
def handleOther (c : Client) (cmd : Command) : Outcome :=
  match cmd with
  | .user content => userCmd c content
  | .noOp => ⟨[⟨.ok, "Doing nothing"⟩], [], .ok c⟩
  | .typ t =>
    ⟨[⟨.ok, "Transfer type changed successfully"⟩], [],
      .ok { c with transfer_type := t }⟩
  | .syst => ⟨[⟨.ok, "I won't tell!"⟩], [], .ok c⟩
  | .unknown s =>
    ⟨[⟨.unknownCommand, "\"" ++ s ++ "\": Not implemented"⟩], [], .ok c⟩
  | .quit => quitCmd c
  | _ => ⟨[⟨.notLoggedIn, "Please log first"⟩], [], .ok c⟩

/-- Rust `Client::handle_cmd` (`src/main.rs`): the logged-in arm handles the
transfer and navigation commands; while a password is awaited only `Pass`
is consumed; everything else falls through to the final `match`. -/
def handleCmd (w : World) (c : Client) (cmd : Command) : Outcome :=
  if c.isLogged then
    match cmd with
    | .cwd directory => cwdCmd w c directory
    | .list path => listCmd w c path
    | .pasv => pasvCmd w c
    | .port n =>
      ⟨[⟨.ok, "Data port is now " ++ toString n⟩], [],
        .ok { c with data_port := some n }⟩
    | .pwd => pwdCmd c
    | .retr file => retrCmd w c file
    | .stor file => storCmd w c file
    | .cdUp => cdUpCmd c
    | .mkd path => mkdCmd w c path
    | .rmd path => rmdCmd w c path
    | _ => handleOther c cmd
  else if c.name.isSome && c.waiting_password then
    match cmd with
    | .pass content => passCmd c content
    | _ => handleOther c cmd
  else handleOther c cmd

/-- One iteration of the session loop in `client` (`src/main.rs`): decode
the buffer; "need more data" waits (`none`); a decode error is logged and
the same session state is kept; a decoded command runs through
`handle_cmd`, whose error, via the loop's `?`, terminates the session. -/
def clientStep (w : World) (c : Client) (buf : List UInt8) :
    Option (Outcome × List UInt8) :=
  match decode buf with
  | (.ok none, _) => none
  | (.error _, rest) => some (⟨[], [], .ok c⟩, rest)
  | (.ok (some cmd), rest) => some (handleCmd w c cmd, rest)

/-! ## Concrete fixtures for witnesses and counterexamples -/

/-- A sandbox root `/srv`. -/
def rootSrv : FilePath := ⟨true, ["srv"]⟩

/-- A configuration with one passwordless regular user and no admin. -/
def cfgAnon : Config := ⟨[⟨"anonymous", ""⟩], none⟩

/-- A deterministic world: canonicalization is the identity on the joined
path, directories exist and are empty, and every socket operation
succeeds. -/
def trivialWorld : World :=
  { canonicalize := fun p => .ok p
    isDir := fun _ => true
    isFile := fun _ => false
    readDir := fun _ => .ok []
    createDirOk := fun _ => true
    removeDirOk := fun _ => true
    openFile := fun _ => .error .notFound
    renderInfo := fun _ => []
    createFileOk := fun _ => true
    bindListener := fun _ => .ok 5000
    acceptOk := true
    dataSendOk := true
    receivedData := [] }

/-- A world whose canonicalization refuses every path, making `CWD` (and
every other resolver-backed command) fail. -/
def denyWorld : World :=
  { trivialWorld with canonicalize := fun _ => .error .notFound }

/-- A world where the `RETR` target exists as a file but opening it fails. -/
def failRetrWorld : World :=
  { trivialWorld with
      isFile := fun _ => true
      openFile := fun _ => .error .notFound }

/-- A world where the `PASV` listener bind fails. -/
def failBindWorld : World :=
  { trivialWorld with bindListener := fun _ => .error .other }

/-- An authenticated session at the virtual root with an Idle data channel. -/
def idleLogged : Client := { Client.new rootSrv cfgAnon with name := some "anonymous" }

/-- The same session after a `PASV` handshake: both data halves live. -/
def openLogged : Client := { idleLogged with data_reader := true, data_writer := true }

/-- The upload target `../secret` of the spec's `STOR` test. -/
def dotdotSecret : FilePath := ⟨false, ["..", "secret"]⟩

/-! ## Theorems -/

/-- Soundness of the Boolean component-lead test used by `starts_with`. -/
theorem isPrefixOf_sound :
    ∀ xs ys : List String, xs.isPrefixOf ys = true → xs <+: ys := by
  intro xs
  induction xs with
  | nil =>
    intro ys _
    exact ⟨ys, rfl⟩
  | cons a as ih =>
    intro ys h
    cases ys with
    | nil => simp [List.isPrefixOf] at h
    | cons b bs =>
      simp only [List.isPrefixOf, Bool.and_eq_true, beq_iff_eq] at h
      obtain ⟨hab, ht⟩ := h
      obtain ⟨t, htail⟩ := ih bs ht
      exact ⟨t, by simp [hab, htail]⟩

/-- Rust `starts_with` on the path model means equality with the base or strict
descent below it. -/
theorem startsWith_eq_or_descendant (q r : FilePath)
    (h : q.startsWith r = true) : q = r ∨ q.isDescendantOf r := by
  unfold FilePath.startsWith at h
  simp only [Bool.and_eq_true, decide_eq_true_eq] at h
  obtain ⟨habs, hpre⟩ := h
  replace hpre := isPrefixOf_sound r.parts q.parts hpre
  by_cases heq : r.parts = q.parts
  · left
    cases q
    cases r
    simp_all
  · right
    exact ⟨habs, hpre, heq⟩

/-- C1: for every filesystem (`canonicalize` is universally quantified, so
in particular it may resolve `..` segments and symlinks placed inside the
root that point outside it), `complete_path` either fails or returns a path
equal to the sandbox root or a descendant of it, and a candidate whose
canonical form does not start with the root is rejected with a
permission error. -/
theorem complete_path_confines
    (canon : FilePath → Except IOErrorKind FilePath) (c : Client) (p : FilePath) :
    (∀ q, completePath canon c p = .ok q →
      q = c.server_root ∨ q.isDescendantOf c.server_root) ∧
    (∀ q, canon (completePathJoined c p) = .ok q →
      q.startsWith c.server_root = false →
      completePath canon c p = .error .permissionDenied) := by
  constructor
  · intro q hq
    unfold completePath at hq
    rcases hc : canon (c.server_root.join (if p.hasRoot then p.skipFirst else p)) with e | dir
    · simp [hc] at hq
    · simp only [hc] at hq
      by_cases hs : dir.startsWith c.server_root
      · simp [hs] at hq
        subst hq
        exact startsWith_eq_or_descendant dir c.server_root hs
      · simp [hs] at hq
  · intro q hq hs
    unfold completePathJoined at hq
    unfold completePath
    simp [hq, hs]

/-- C1 witness: with a canonicalization keeping `/srv/d` in place the
resolver returns it (equal to or below the root `/srv`), and with a
canonicalization that resolves a symlink `link` inside the root to `/etc`
outside it, the resolver rejects with a permission error. -/
theorem complete_path_confines_witness :
    ((⟨true, ["srv", "d"]⟩ : FilePath) = (Client.new rootSrv cfgAnon).server_root ∨
      FilePath.isDescendantOf ⟨true, ["srv", "d"]⟩ (Client.new rootSrv cfgAnon).server_root) ∧
    completePath (fun _ => .ok ⟨true, ["etc"]⟩) (Client.new rootSrv cfgAnon)
      ⟨false, ["link"]⟩ = .error .permissionDenied :=
  ⟨(complete_path_confines (fun _ => .ok ⟨true, ["srv", "d"]⟩)
      (Client.new rootSrv cfgAnon) ⟨false, ["d"]⟩).1 ⟨true, ["srv", "d"]⟩ (by decide),
    (complete_path_confines (fun _ => .ok ⟨true, ["etc"]⟩)
      (Client.new rootSrv cfgAnon) ⟨false, ["link"]⟩).2 ⟨true, ["etc"]⟩ rfl (by decide)⟩

/-- C2: the command parser is a total function of the raw line bytes — the
model compiles as a structurally terminating definition, and every byte
sequence (empty, non-UTF-8 or arbitrarily long) yields either a `Command`
value or a reported decode error; there is no third outcome. -/
theorem command_new_total (data : List UInt8) :
    (∃ cmd, Command.new data = .ok cmd) ∨ (∃ e, Command.new data = .error e) := by
  rcases h : Command.new data with e | cmd
  · right
    exact ⟨e, rfl⟩
  · left
    exact ⟨cmd, rfl⟩

/-- The transfer and navigation commands named by the session-gating
property. -/
def Command.isTransferNav : Command → Bool
  | .cwd _ | .cdUp | .pwd | .list _ | .retr _ | .stor _
  | .pasv | .port _ | .mkd _ | .rmd _ => true
  | _ => false

/-- C3: a session that is not logged in (no user name recorded, or a
password still awaited) answers every transfer or navigation command with
`NotLoggedIn`, and the session state, the data channel and the filesystem
are untouched (same `Client`, no effects). -/
theorem unauthenticated_commands_gated (w : World) (c : Client) (cmd : Command)
    (hlog : c.isLogged = false) (hcmd : cmd.isTransferNav = true) :
    handleCmd w c cmd = ⟨[⟨.notLoggedIn, "Please log first"⟩], [], .ok c⟩ := by
  cases cmd <;> simp [Command.isTransferNav] at hcmd <;>
    simp [handleCmd, handleOther, hlog]

/-- C3 witness: a fresh unauthenticated session replying to `PWD`. -/
theorem unauthenticated_commands_gated_witness :
    handleCmd trivialWorld (Client.new rootSrv cfgAnon) .pwd =
      ⟨[⟨.notLoggedIn, "Please log first"⟩], [], .ok (Client.new rootSrv cfgAnon)⟩ :=
  unauthenticated_commands_gated trivialWorld (Client.new rootSrv cfgAnon) .pwd rfl rfl

/-- C4 counterexample: in the Idle data-channel state, `STOR ../secret` is
answered with `ConnectionClosed`, not with a permission error — the
syntactic `..` check sits inside the open-data-channel branch and is never
reached while Idle (no file is created either way). -/
theorem stor_idle_replies_connection_closed :
    handleCmd trivialWorld idleLogged (.stor dotdotSecret) =
      ⟨[⟨.connectionClosed, "No opened data connection"⟩], [], .ok idleLogged⟩ ∧
    handleCmd trivialWorld idleLogged (.stor dotdotSecret) ≠
      ⟨[], [], .error (.ioErr .permissionDenied)⟩ := by
  constructor
  · decide
  · decide

/-- C4 amended: for an authenticated session, `STOR` of a path containing a
`..` component is rejected with a permission error before the path is
joined to the working directory when the data channel is Open
(`data_reader` present); while Idle the command is answered with
`ConnectionClosed` and the path check is not reached; in both states no
file is created (no effects). -/
theorem stor_dotdot_rejected (w : World) (c : Client) (p : FilePath)
    (hlog : c.isLogged = true) (hinv : invalidPath p = true) :
    (c.data_reader = true →
      handleCmd w c (.stor p) = ⟨[], [], .error (.ioErr .permissionDenied)⟩) ∧
    (c.data_reader = false →
      handleCmd w c (.stor p) =
        ⟨[⟨.connectionClosed, "No opened data connection"⟩], [], .ok c⟩) := by
  constructor <;> intro hr <;> simp [handleCmd, storCmd, hlog, hinv, hr]

/-- C4 amended witness: the Open-state rejection at `../secret`. -/
theorem stor_dotdot_rejected_witness :
    handleCmd trivialWorld openLogged (.stor dotdotSecret) =
      ⟨[], [], .error (.ioErr .permissionDenied)⟩ :=
  (stor_dotdot_rejected trivialWorld openLogged dotdotSecret rfl rfl).1 rfl

/-- C5 counterexample: the sandbox violation in `STOR` (a `..` path with
the data channel open) is a per-command error that is *not* recovered
locally — `handle_cmd` returns it as an `Err` with no protocol reply, and
the session loop's `?` then terminates the session. -/
theorem stor_error_terminates_session :
    (handleCmd trivialWorld openLogged (.stor dotdotSecret)).result =
      .error (.ioErr .permissionDenied) ∧
    (handleCmd trivialWorld openLogged (.stor dotdotSecret)).answers = [] ∧
    clientStep trivialWorld openLogged (asciiBytes "STOR ../secret" ++ [13, 10]) =
      some (⟨[], [], .error (.ioErr .permissionDenied)⟩, []) := by
  refine ⟨by decide, by decide, by decide⟩

/-- The commands whose handlers convert every failure into a protocol reply
(no `?` on a fallible operation on their paths). -/
def Command.recoversLocally : Command → Bool
  | .cwd _ | .cdUp | .pwd | .mkd _ | .rmd _ | .port _
  | .user _ | .typ _ | .syst | .noOp | .unknown _ => true
  | _ => false

/-- Every branch of the `USER` handler replies and keeps the session. -/
theorem userCmd_ok (c : Client) (s : String) :
    (userCmd c s).answers ≠ [] ∧ ∃ c', (userCmd c s).result = .ok c' := by
  unfold userCmd
  dsimp only
  repeat' split
  all_goals exact ⟨by simp, _, rfl⟩

/-- C5 amended: `handle_cmd` recovers locally — at least one protocol reply
is sent and the session is returned alive — for `Cwd`, `CdUp`, `Pwd`,
`Mkd`, `Rmd`, `Port`, `User`, `Type`, `Syst`, `NoOp` and `Unknown` in every
state and world; it does not for the transfer commands: the sandbox
permission error in `Stor`, a failing file open in `Retr` and a failing
listener bind in `Pasv` each propagate out of `handle_cmd` as `Err`, which
the session loop's `?` turns into session termination (see the
counterexample for the full `Stor` outcome). -/
theorem handle_cmd_recovers_locally :
    (∀ (w : World) (c : Client) (cmd : Command), cmd.recoversLocally = true →
      (handleCmd w c cmd).answers ≠ [] ∧
      ∃ c', (handleCmd w c cmd).result = .ok c') ∧
    (handleCmd trivialWorld openLogged (.stor ⟨false, [".."]⟩)).result =
      .error (.ioErr .permissionDenied) ∧
    (handleCmd failRetrWorld openLogged (.retr ⟨false, ["f"]⟩)).result =
      .error (.ioErr .notFound) ∧
    (handleCmd failBindWorld idleLogged .pasv).result =
      .error (.ioErr .other) := by
  refine ⟨?_, by decide, by decide, by decide⟩
  intro w c cmd h
  cases cmd <;> simp [Command.recoversLocally] at h <;>
    unfold handleCmd handleOther cwdCmd mkdCmd rmdCmd pwdCmd cdUpCmd <;>
    dsimp only <;>
    repeat' split
  all_goals first
    | exact ⟨by simp, _, rfl⟩
    | exact userCmd_ok _ _

/-- C5 amended witness: a `CWD` that actually fails (the canonicalization
refuses every path) is still answered — with `FileNotFound` — and the
session survives. -/
theorem handle_cmd_recovers_locally_witness :
    (handleCmd denyWorld idleLogged (.cwd ⟨false, ["nope"]⟩)).answers ≠ [] ∧
    ∃ c', (handleCmd denyWorld idleLogged (.cwd ⟨false, ["nope"]⟩)).result = .ok c' :=
  handle_cmd_recovers_locally.1 denyWorld idleLogged (.cwd ⟨false, ["nope"]⟩) rfl

/-- C6 (code bug): a fresh session starts at the absolute virtual root, but
a successful `Cwd` stores the *relative* result of `strip_prefix` without
the `prefix_slash` call that `CdUp` performs, so after `CWD foo` (with
`/srv/foo` canonicalizing to itself) the virtual working directory is the
relative path `foo` — the always-absolute invariant is broken. -/
theorem cwd_drops_absolute_slash :
    (Client.new rootSrv cfgAnon).cwd.absolute = true ∧
    handleCmd trivialWorld idleLogged (.cwd ⟨false, ["foo"]⟩) =
      ⟨[⟨.requestedFileActionOkay, "Directory changed to \"foo\""⟩], [],
        .ok { idleLogged with cwd := ⟨false, ["foo"]⟩ }⟩ ∧
    (FilePath.mk false ["foo"]).absolute = false := by
  refine ⟨rfl, by decide, rfl⟩

/-- A configuration whose admin `admin` (password `pw`) is not also listed
among the regular users. -/
def cfgAdminOnly : Config := ⟨[], some ⟨"admin", "pw"⟩⟩

/-- A fresh session against `cfgAdminOnly`. -/
def freshAdminClient : Client := Client.new rootSrv cfgAdminOnly

/-- C7 (code bug): `USER admin` against a configuration whose admin is not
also a regular user answers `NotLoggedIn "Unknown user..."`; the admin
branch sets the admin flag but never records the pending name (its comment
says the user-list loop is only for non-admins), so the session does not
enter the awaiting-password state and no `UserNameOkayNeedPassword` reply
is sent. -/
theorem user_admin_not_recognized :
    handleCmd trivialWorld freshAdminClient (.user "admin") =
      ⟨[⟨.notLoggedIn, "Unknown user..."⟩], [],
        .ok { freshAdminClient with is_admin := true }⟩ ∧
    ({ freshAdminClient with is_admin := true } : Client).name = none ∧
    ({ freshAdminClient with is_admin := true } : Client).waiting_password = false := by
  refine ⟨by decide, rfl, rfl⟩

/-- C8: an authenticated session whose data channel is Idle (no accepted
reader or writer half) answers `List`, `Retr` and `Stor` with
`ConnectionClosed` ("no opened data connection"), performs no filesystem or
data-channel I/O (no effects), and is returned unchanged. -/
theorem idle_transfer_commands_rejected (w : World) (c : Client)
    (pathArg : Option FilePath) (p q : FilePath)
    (hlog : c.isLogged = true) (hr : c.data_reader = false)
    (hw : c.data_writer = false) :
    handleCmd w c (.list pathArg) =
      ⟨[⟨.connectionClosed, "No opened data connection"⟩], [], .ok c⟩ ∧
    handleCmd w c (.retr p) =
      ⟨[⟨.connectionClosed, "No opened data connection"⟩], [], .ok c⟩ ∧
    handleCmd w c (.stor q) =
      ⟨[⟨.connectionClosed, "No opened data connection"⟩], [], .ok c⟩ := by
  refine ⟨?_, ?_, ?_⟩ <;>
    simp [handleCmd, listCmd, retrCmd, storCmd, hlog, hr, hw]

/-- C8 witness: the Idle fixture rejecting all three transfer commands. -/
theorem idle_transfer_commands_rejected_witness :
    handleCmd trivialWorld idleLogged (.list none) =
      ⟨[⟨.connectionClosed, "No opened data connection"⟩], [], .ok idleLogged⟩ ∧
    handleCmd trivialWorld idleLogged (.retr ⟨false, ["f"]⟩) =
      ⟨[⟨.connectionClosed, "No opened data connection"⟩], [], .ok idleLogged⟩ ∧
    handleCmd trivialWorld idleLogged (.stor ⟨false, ["g"]⟩) =
      ⟨[⟨.connectionClosed, "No opened data connection"⟩], [], .ok idleLogged⟩ :=
  idle_transfer_commands_rejected trivialWorld idleLogged none
    ⟨false, ["f"]⟩ ⟨false, ["g"]⟩ rfl rfl rfl

/-- C9: the decode step returns "need more data" (`none`) with the buffer
untouched when no CRLF window exists; when the first CRLF sits at index
`i`, it consumes the `i` bytes before it plus the two CRLF bytes and hands
the first `i` bytes to the command parser; concretely, `"PWD"` alone
decodes to no command with the buffer kept, and with `"\r\n"` appended it
decodes to the `Pwd` command with an empty buffer left. -/
theorem decode_crlf_framing :
    (∀ buf : List UInt8, findCrlf buf = none → decode buf = (.ok none, buf)) ∧
    (∀ (buf : List UInt8) (i : Nat), findCrlf buf = some i →
      decode buf =
        (((Command.new (buf.take i)).map (fun cmd => some cmd)).mapError
            Error.toIoError,
          buf.drop (i + 2))) ∧
    decode (asciiBytes "PWD") = (.ok none, asciiBytes "PWD") ∧
    decode (asciiBytes "PWD" ++ [13, 10]) = (.ok (some .pwd), []) := by
  refine ⟨?_, ?_, by decide, by decide⟩
  · intro buf h
    simp [decode, h]
  · intro buf i h
    simp [decode, h, List.drop_drop, Nat.add_comm]

/-- C9 witness: the framing equation applied to the buffer `"PWD\r\n"`,
whose first CRLF is at index 3. -/
theorem decode_crlf_framing_witness :
    decode (asciiBytes "PWD" ++ [13, 10]) =
      (((Command.new ((asciiBytes "PWD" ++ [13, 10]).take 3)).map
          (fun cmd => some cmd)).mapError Error.toIoError,
        (asciiBytes "PWD" ++ [13, 10]).drop (3 + 2)) :=
  decode_crlf_framing.2.1 (asciiBytes "PWD" ++ [13, 10]) 3 (by decide)

/-- A malformed line (`CWD` with a lone `0xFF`, invalid UTF-8) followed by
a CRLF and then a well-formed `PWD` line. -/
def badThenPwd : List UInt8 :=
  asciiBytes "CWD " ++ [255] ++ [13, 10] ++ asciiBytes "PWD" ++ [13, 10]

/-- C10: when a CRLF-terminated line fails to parse, the decoder has
already removed the line and its CRLF before returning the error, and the
session loop keeps the same session state; hence a well-formed line behind
a malformed one decodes and executes normally — after `"CWD \xFF\r\n"` the
buffer holds exactly `"PWD\r\n"`, the client is unchanged, and the next
step executes `Pwd` normally. -/
theorem parse_error_line_consumed :
    (∀ (buf : List UInt8) (i : Nat) (e : Error), findCrlf buf = some i →
      Command.new (buf.take i) = .error e →
      decode buf = (.error e.toIoError, buf.drop (i + 2))) ∧
    (∀ (w : World) (c : Client) (buf : List UInt8) (i : Nat) (e : Error),
      findCrlf buf = some i → Command.new (buf.take i) = .error e →
      clientStep w c buf = some (⟨[], [], .ok c⟩, buf.drop (i + 2))) ∧
    clientStep trivialWorld idleLogged badThenPwd =
      some (⟨[], [], .ok idleLogged⟩, asciiBytes "PWD" ++ [13, 10]) ∧
    clientStep trivialWorld idleLogged (asciiBytes "PWD" ++ [13, 10]) =
      some (⟨[⟨.pathnameCreated, "\"/\" "⟩], [], .ok idleLogged⟩, []) := by
  have hdec : ∀ (buf : List UInt8) (i : Nat) (e : Error), findCrlf buf = some i →
      Command.new (buf.take i) = .error e →
      decode buf = (.error e.toIoError, buf.drop (i + 2)) := by
    intro buf i e h hp
    simp [decode, h, hp, Except.map, Except.mapError, List.drop_drop, Nat.add_comm]
  refine ⟨hdec, ?_, by decide, by decide⟩
  intro w c buf i e h hp
  simp [clientStep, hdec buf i e h hp]

/-- C10 witness: the decoder dropping the malformed `"CWD \xFF"` line and
its CRLF in one step. -/
theorem parse_error_line_consumed_witness :
    decode (asciiBytes "CWD " ++ [255, 13, 10]) =
      (.error Error.utf8.toIoError,
        (asciiBytes "CWD " ++ [255, 13, 10]).drop (5 + 2)) :=
  parse_error_line_consumed.1 (asciiBytes "CWD " ++ [255, 13, 10]) 5 .utf8
    (by decide) (by decide)

end FtpServer
